import Mathlib

/-!
Verification of the order-execution worker of this repository.

The embedding below models `processOrder` from `src/workers/worker.ts`
(the dependency-injected processor) and the backwards-compatible wrapper
`processOrder` from `src/workers/processOrder.ts`.

Modelling conventions:
* JavaScript numbers are modelled as rationals (`ℚ`); all comparisons the
  code performs on them are exact order comparisons.
* A promise that resolves is `Except.ok` / `Option.none` (no rejection);
  a promise that rejects carries its error message as a `String`.
* The injected sinks (`saveOrderEvent`, `publishOrderEvent`) and the router
  (`getRaydiumQuote`, `getMeteoraQuote`, `executeSwap`) are modelled by an
  environment `Env` of oracles: each sink call's resolve/reject behaviour is
  a function of the lifecycle status it is invoked with (each status is
  emitted at most once per attempt, so this loses no generality).
* Every sink invocation is recorded in a trace, in invocation order, with
  the payload the code passes and whether the call resolved.  Log calls and
  wall-clock timestamps (`startedAt: new Date().toISOString()`) are not
  observable data of any claim and are not modelled.
* `Promise.all` over the two quote requests rejects with the first rejection
  to settle; settlement order between two simultaneous rejections is
  timing-dependent in JS and is modelled as the raydium rejection winning
  (no claim depends on that tie).
-/

namespace OrderExec

/-- Lifecycle statuses used as the first argument of both sinks
(`worker.ts` lines 49-115). -/
inductive Status where
  | routing
  | building
  | submitted
  | confirmed
  | failed
deriving DecidableEq, Repr

/-- Which of the two injected sinks a call went to: `saveOrderEvent`
(durable) or `publishOrderEvent` (transient). -/
inductive SinkKind where
  | durable
  | transient
deriving DecidableEq, Repr

/-- A venue quote as produced by `MockDexRouter.getRaydiumQuote` /
`getMeteoraQuote` (`src/lib/mockDexRouter.ts`): `{ price, fee, dex }`; the
`dex` field of the quote object is overwritten at the selection site, so
only `price` and `fee` are modelled. -/
structure Quote where
  price : ℚ
  fee : ℚ
deriving DecidableEq, Repr

/-- The `chosen` object built at `worker.ts:58`: the selected quote's fields
plus the venue tag. -/
structure Chosen where
  price : ℚ
  fee : ℚ
  dex : String
deriving DecidableEq, Repr

/-- Result of `router.executeSwap` as consumed by the worker
(`exec.txHash`, `exec.executedPrice`). -/
structure ExecResult where
  txHash : String
  executedPrice : ℚ
deriving DecidableEq, Repr

/-- The payload object passed to a sink call, one constructor per call site
in `worker.ts` plus the wrapper's attempt-less failed payload in
`processOrder.ts`. -/
inductive Payload where
  | routing (attempt : ℕ)
  | building (chosen : Chosen) (attempt : ℕ)
  | submitted (txHash : String) (attempt : ℕ)
  | confirmed (txHash : String) (executedPrice : ℚ) (dex : String) (attempts : ℕ) (ok : Bool)
  | failed (error : String) (attempt : ℕ)
  | wrapperFailed (error : String)
deriving DecidableEq, Repr

/-- One recorded sink invocation: which sink, the `orderId` argument
(`none` models JS `undefined`), the status argument, the payload, and
whether the call resolved (`ok = true`) or rejected. -/
structure TraceEntry where
  kind : SinkKind
  orderId : Option String
  status : Status
  payload : Payload
  ok : Bool
deriving DecidableEq, Repr

/-- The success record returned at `worker.ts:94-101`.  The spec calls the
`dex` field `venueId`. -/
structure ReturnObj where
  status : String
  txHash : String
  executedPrice : ℚ
  dex : String
  attempts : ℕ
  ok : Bool
deriving DecidableEq, Repr

/-- Outcome of one `processOrder` call: the returned record or the raised
error's message. -/
inductive Outcome where
  | ret (r : ReturnObj)
  | raise (msg : String)
deriving DecidableEq, Repr

/-- `job.data` as destructured at `worker.ts:37`; `orderId = none` models an
absent (`undefined`) field. -/
structure JobData where
  orderId : Option String
  tokenIn : String
  tokenOut : String
  amountIn : ℚ
deriving DecidableEq, Repr

/-- The BullMQ job fields the worker reads: `job.data` and
`job.attemptsMade` (`none` models `null`/`undefined`). -/
structure Job where
  data : JobData
  attemptsMade : Option ℕ
deriving DecidableEq, Repr

/-- Oracle environment for one `processOrder` call: the router's three
promises and, for each sink and status, whether that call resolves (`none`)
or rejects with a message (`some msg`). -/
structure Env where
  rayQuote : Except String Quote
  metQuote : Except String Quote
  execRes : Except String ExecResult
  saveRes : Status → Option String
  pubRes : Status → Option String

/-- JS truthiness of the check `if (!orderId)` at `worker.ts:42`: true for
an absent field and for the empty string. -/
def missingOrderId : Option String → Bool
  | none => true
  | some s => s = ""

/-- Attempt bookkeeping at `worker.ts:38`:
`attemptsMade != null ? attemptsMade + 1 : 1`. -/
def attemptOf : Option ℕ → ℕ
  | some k => k + 1
  | none => 1

/-- Venue selection at `worker.ts:58`:
`ray.price <= met.price ? { ...ray, dex: 'raydium' } : { ...met, dex: 'meteora' }`. -/
def chooseVenue (ray met : Quote) : Chosen :=
  if ray.price ≤ met.price then ⟨ray.price, ray.fee, "raydium"⟩
  else ⟨met.price, met.fee, "meteora"⟩

/-- Effective cost of a quote, `price * (1 + fee)`.  This definition comes
from the SPEC (§3 ChosenVenue and the Glossary), not from the source; it is
declared only to state the spec's selection rule and compare it with the
source's `chooseVenue`. -/
def effectiveCost (q : Quote) : ℚ := q.price * (1 + q.fee)

/-- `Promise.all` over the two quote requests (`worker.ts:53-56`): resolves
with the pair when both resolve, rejects with the first rejection otherwise
(raydium's rejection modelled as settling first when both reject). -/
def promiseAllQuotes : Except String Quote → Except String Quote →
    Except String (Quote × Quote)
  | Except.error m, _ => Except.error m
  | Except.ok _, Except.error m => Except.error m
  | Except.ok r, Except.ok q => Except.ok (r, q)

/-- The body of the big `try` block, `worker.ts:47-104`: sequential awaited
sink calls are not individually wrapped (a rejection short-circuits to the
`catch`), while the two `confirmed` emissions at lines 81-92 are each
wrapped in their own `try`/`catch` and never propagate. -/
def tryBody (orderId : String) (attempt : ℕ) (env : Env) :
    List TraceEntry × Except String ReturnObj :=
  match env.saveRes Status.routing with
  | some m => ([⟨SinkKind.durable, some orderId, Status.routing, Payload.routing attempt, false⟩],
      Except.error m)
  | none =>
    let eRS : TraceEntry :=
      ⟨SinkKind.durable, some orderId, Status.routing, Payload.routing attempt, true⟩
    match env.pubRes Status.routing with
    | some m => ([eRS, ⟨SinkKind.transient, some orderId, Status.routing, Payload.routing attempt, false⟩],
        Except.error m)
    | none =>
      let eRP : TraceEntry :=
        ⟨SinkKind.transient, some orderId, Status.routing, Payload.routing attempt, true⟩
      match promiseAllQuotes env.rayQuote env.metQuote with
      | Except.error m => ([eRS, eRP], Except.error m)
      | Except.ok (ray, met) =>
        let chosen := chooseVenue ray met
        match env.saveRes Status.building with
        | some m => ([eRS, eRP,
            ⟨SinkKind.durable, some orderId, Status.building, Payload.building chosen attempt, false⟩],
            Except.error m)
        | none =>
          let eBS : TraceEntry :=
            ⟨SinkKind.durable, some orderId, Status.building, Payload.building chosen attempt, true⟩
          match env.pubRes Status.building with
          | some m => ([eRS, eRP, eBS,
              ⟨SinkKind.transient, some orderId, Status.building, Payload.building chosen attempt, false⟩],
              Except.error m)
          | none =>
            let eBP : TraceEntry :=
              ⟨SinkKind.transient, some orderId, Status.building, Payload.building chosen attempt, true⟩
            match env.execRes with
            | Except.error m => ([eRS, eRP, eBS, eBP], Except.error m)
            | Except.ok ex =>
              match env.saveRes Status.submitted with
              | some m => ([eRS, eRP, eBS, eBP,
                  ⟨SinkKind.durable, some orderId, Status.submitted, Payload.submitted ex.txHash attempt, false⟩],
                  Except.error m)
              | none =>
                let eSS : TraceEntry :=
                  ⟨SinkKind.durable, some orderId, Status.submitted, Payload.submitted ex.txHash attempt, true⟩
                match env.pubRes Status.submitted with
                | some m => ([eRS, eRP, eBS, eBP, eSS,
                    ⟨SinkKind.transient, some orderId, Status.submitted, Payload.submitted ex.txHash attempt, false⟩],
                    Except.error m)
                | none =>
                  let eSP : TraceEntry :=
                    ⟨SinkKind.transient, some orderId, Status.submitted, Payload.submitted ex.txHash attempt, true⟩
                  let eCS : TraceEntry :=
                    ⟨SinkKind.durable, some orderId, Status.confirmed,
                      Payload.confirmed ex.txHash ex.executedPrice chosen.dex attempt true,
                      (env.saveRes Status.confirmed).isNone⟩
                  let eCP : TraceEntry :=
                    ⟨SinkKind.transient, some orderId, Status.confirmed,
                      Payload.confirmed ex.txHash ex.executedPrice chosen.dex attempt true,
                      (env.pubRes Status.confirmed).isNone⟩
                  ([eRS, eRP, eBS, eBP, eSS, eSP, eCS, eCP],
                    Except.ok ⟨"filled", ex.txHash, ex.executedPrice, chosen.dex, attempt, true⟩)

/-- The `catch` block at `worker.ts:105-121`: both `failed` emissions are
individually wrapped (their own `try`/`catch`), then the original error is
re-raised. -/
def catchEmit (env : Env) (orderId : String) (attempt : ℕ) (m : String) : List TraceEntry :=
  [⟨SinkKind.durable, some orderId, Status.failed, Payload.failed m attempt,
      (env.saveRes Status.failed).isNone⟩,
   ⟨SinkKind.transient, some orderId, Status.failed, Payload.failed m attempt,
      (env.pubRes Status.failed).isNone⟩]

/-- One attempt after validation: the `try`/`catch` of `worker.ts:47-121`. -/
def runAttempt (orderId : String) (attempt : ℕ) (env : Env) : List TraceEntry × Outcome :=
  match tryBody orderId attempt env with
  | (t, Except.ok r) => (t, Outcome.ret r)
  | (t, Except.error m) => (t ++ catchEmit env orderId attempt m, Outcome.raise m)

/-- `processOrder(job, deps)` from `src/workers/worker.ts:33-122`, with the
injected dependencies abstracted into `env`; returns the full ordered trace
of sink invocations and the outcome. -/
def processOrder (job : Job) (env : Env) : List TraceEntry × Outcome :=
  let attempt := attemptOf job.attemptsMade
  match job.data.orderId with
  | none => ([], Outcome.raise "job missing orderId")
  | some oid =>
    if oid = "" then ([], Outcome.raise "job missing orderId")
    else runAttempt oid attempt env

/-- Modelled from the spec: `src/workers/processOrderLogic.ts` is imported
by the wrapper `src/workers/processOrder.ts` but is absent from the sources;
per spec §4.1 the processor logic validates `orderId` (raising the
validation error "job missing orderId" with no sink calls) and otherwise
drives the routing/building/submitted/confirmed state machine with
dual-sink emission — the same state machine `worker.ts` implements.  The
wrapper passes only the intent (no scheduler attempt counter), so the
counter is absent. -/
def processOrderLogic (intent : JobData) (env : Env) : List TraceEntry × Outcome :=
  processOrder ⟨intent, none⟩ env

/-- The backwards-compatible wrapper `processOrder(job)` from
`src/workers/processOrder.ts:13-39`: call the logic; on any raised error,
try to persist then publish a `failed` event (both inside ONE `try`, so the
publish only happens if the persist resolved; a rejection of either is
caught and logged), then rethrow the original error.  `wSave`/`wPub` are
the resolve/reject oracles of the wrapper's own two sink calls. -/
def processOrderWrapper (job : Job) (env : Env) (wSave wPub : Option String) :
    List TraceEntry × Outcome :=
  match processOrderLogic job.data env with
  | (t, Outcome.ret r) => (t, Outcome.ret r)
  | (t, Outcome.raise m) =>
    match wSave with
    | some _ =>
      (t ++ [⟨SinkKind.durable, job.data.orderId, Status.failed, Payload.wrapperFailed m, false⟩],
        Outcome.raise m)
    | none =>
      (t ++ [⟨SinkKind.durable, job.data.orderId, Status.failed, Payload.wrapperFailed m, true⟩,
             ⟨SinkKind.transient, job.data.orderId, Status.failed, Payload.wrapperFailed m, wPub.isNone⟩],
        Outcome.raise m)

/-- Does the trace contain an invocation with the given status? -/
def emitsStatus (t : List TraceEntry) (s : Status) : Bool :=
  t.any fun x => decide (x.status = s)

/-- The attempt number a payload carries (`attempt`, or `attempts` for the
confirmed payload; the wrapper's failed payload carries none). -/
def payloadAttempt : Payload → Option ℕ
  | Payload.routing a => some a
  | Payload.building _ a => some a
  | Payload.submitted _ a => some a
  | Payload.confirmed _ _ _ a _ => some a
  | Payload.failed _ a => some a
  | Payload.wrapperFailed _ => none

/-- Scans a list of (sink, status) invocations and checks that every
transient invocation of a status is preceded by a durable invocation of the
same status. -/
def dbtAux : List Status → List (SinkKind × Status) → Bool
  | _, [] => true
  | seen, (SinkKind.durable, s) :: rest => dbtAux (s :: seen) rest
  | seen, (SinkKind.transient, s) :: rest =>
      (seen.any fun x => decide (x = s)) && dbtAux seen rest

-- Shared concrete instances used by counterexamples and witnesses.

/-- The spec §8 example quote for venue A (raydium): price 100, fee 0.003. -/
def qRay : Quote := ⟨100, 3 / 1000⟩

/-- The spec §8 example quote for venue B (meteora): price 98, fee 0.002. -/
def qMet : Quote := ⟨98, 2 / 1000⟩

/-- A concrete execution result. -/
def exOk : ExecResult := ⟨"tx-1", 99⟩

/-- A job with a valid orderId, first attempt. -/
def jobOk : Job := ⟨⟨some "order-1", "SOL", "USDC", 100⟩, some 0⟩

/-- A job whose data has no `orderId` field. -/
def jobMissing : Job := ⟨⟨none, "SOL", "USDC", 100⟩, none⟩

/-- Environment in which every router call and every sink call resolves. -/
def envAllOk : Env :=
  ⟨Except.ok qRay, Except.ok qMet, Except.ok exOk, fun _ => none, fun _ => none⟩

/-- Like `envAllOk` but the trade execution rejects. -/
def envExecFail : Env := { envAllOk with execRes := Except.error "network error" }

/-- Like `envAllOk` but the raydium quote fetch rejects. -/
def envQuoteFail : Env := { envAllOk with rayQuote := Except.error "quote timeout" }

/-- Like `envAllOk` but the durable sink rejects on the routing step. -/
def envRoutSaveFail : Env :=
  { envAllOk with saveRes := fun s => match s with
      | Status.routing => some "db down"
      | _ => none }

/-- Like `envAllOk` but the transient sink rejects on the submitted step. -/
def envSubPubFail : Env :=
  { envAllOk with pubRes := fun s => match s with
      | Status.submitted => some "ws down"
      | _ => none }

/-- Like `envAllOk` but both sinks reject on the confirmed step. -/
def envConfBothFail : Env :=
  { envAllOk with
    saveRes := fun s => match s with
      | Status.confirmed => some "db down"
      | _ => none
    pubRes := fun s => match s with
      | Status.confirmed => some "ws down"
      | _ => none }

/-- A quote for venue A with zero fee: effective cost 100. -/
def qA0 : Quote := ⟨100, 0⟩

/-- A quote for venue B with a 5% fee: raw price 99 but effective cost
99 * 1.05 = 103.95, higher than `qA0`'s. -/
def qB0 : Quote := ⟨99, 1 / 20⟩

/-- Like `envAllOk` but with the quotes `qA0`/`qB0`, on which raw-price
selection and effective-cost selection disagree. -/
def envFeeCex : Env := { envAllOk with rayQuote := Except.ok qA0, metQuote := Except.ok qB0 }

example : (processOrder jobOk envAllOk).2 =
    Outcome.ret ⟨"filled", "tx-1", 99, "meteora", 1, true⟩ := by decide

example : processOrder jobMissing envAllOk = ([], Outcome.raise "job missing orderId") := by
  decide

/-! ### Run-shape lemmas

One lemma per control-flow branch of `processOrder`, giving the full trace
and outcome of the run under that branch's conditions.  All claim theorems
are assembled from these. -/

theorem run_missing (job : Job) (env : Env) (h : missingOrderId job.data.orderId = true) :
    processOrder job env = ([], Outcome.raise "job missing orderId") := by
  rcases hOid : job.data.orderId with _ | oid
  · simp [processOrder, hOid]
  · rw [hOid] at h
    simp only [missingOrderId, decide_eq_true_eq] at h
    simp [processOrder, hOid, h]

theorem run_saveR_fail (job : Job) (env : Env) (oid m : String)
    (hOid : job.data.orderId = some oid) (hne : oid ≠ "")
    (hRS : env.saveRes Status.routing = some m) :
    processOrder job env =
      ([⟨SinkKind.durable, some oid, Status.routing,
          Payload.routing (attemptOf job.attemptsMade), false⟩] ++
        catchEmit env oid (attemptOf job.attemptsMade) m,
       Outcome.raise m) := by
  simp [processOrder, runAttempt, tryBody, hOid, hne, hRS]

theorem run_pubR_fail (job : Job) (env : Env) (oid m : String)
    (hOid : job.data.orderId = some oid) (hne : oid ≠ "")
    (hRS : env.saveRes Status.routing = none)
    (hRP : env.pubRes Status.routing = some m) :
    processOrder job env =
      ([⟨SinkKind.durable, some oid, Status.routing,
          Payload.routing (attemptOf job.attemptsMade), true⟩,
        ⟨SinkKind.transient, some oid, Status.routing,
          Payload.routing (attemptOf job.attemptsMade), false⟩] ++
        catchEmit env oid (attemptOf job.attemptsMade) m,
       Outcome.raise m) := by
  simp [processOrder, runAttempt, tryBody, hOid, hne, hRS, hRP]

theorem run_quotes_fail (job : Job) (env : Env) (oid m : String)
    (hOid : job.data.orderId = some oid) (hne : oid ≠ "")
    (hRS : env.saveRes Status.routing = none)
    (hRP : env.pubRes Status.routing = none)
    (hQ : promiseAllQuotes env.rayQuote env.metQuote = Except.error m) :
    processOrder job env =
      ([⟨SinkKind.durable, some oid, Status.routing,
          Payload.routing (attemptOf job.attemptsMade), true⟩,
        ⟨SinkKind.transient, some oid, Status.routing,
          Payload.routing (attemptOf job.attemptsMade), true⟩] ++
        catchEmit env oid (attemptOf job.attemptsMade) m,
       Outcome.raise m) := by
  simp [processOrder, runAttempt, tryBody, hOid, hne, hRS, hRP, hQ]

theorem run_saveB_fail (job : Job) (env : Env) (oid m : String) (ray met : Quote)
    (hOid : job.data.orderId = some oid) (hne : oid ≠ "")
    (hRS : env.saveRes Status.routing = none)
    (hRP : env.pubRes Status.routing = none)
    (hray : env.rayQuote = Except.ok ray) (hmet : env.metQuote = Except.ok met)
    (hBS : env.saveRes Status.building = some m) :
    processOrder job env =
      ([⟨SinkKind.durable, some oid, Status.routing,
          Payload.routing (attemptOf job.attemptsMade), true⟩,
        ⟨SinkKind.transient, some oid, Status.routing,
          Payload.routing (attemptOf job.attemptsMade), true⟩,
        ⟨SinkKind.durable, some oid, Status.building,
          Payload.building (chooseVenue ray met) (attemptOf job.attemptsMade), false⟩] ++
        catchEmit env oid (attemptOf job.attemptsMade) m,
       Outcome.raise m) := by
  simp [processOrder, runAttempt, tryBody, promiseAllQuotes, hOid, hne, hRS, hRP, hray, hmet, hBS]

theorem run_pubB_fail (job : Job) (env : Env) (oid m : String) (ray met : Quote)
    (hOid : job.data.orderId = some oid) (hne : oid ≠ "")
    (hRS : env.saveRes Status.routing = none)
    (hRP : env.pubRes Status.routing = none)
    (hray : env.rayQuote = Except.ok ray) (hmet : env.metQuote = Except.ok met)
    (hBS : env.saveRes Status.building = none)
    (hBP : env.pubRes Status.building = some m) :
    processOrder job env =
      ([⟨SinkKind.durable, some oid, Status.routing,
          Payload.routing (attemptOf job.attemptsMade), true⟩,
        ⟨SinkKind.transient, some oid, Status.routing,
          Payload.routing (attemptOf job.attemptsMade), true⟩,
        ⟨SinkKind.durable, some oid, Status.building,
          Payload.building (chooseVenue ray met) (attemptOf job.attemptsMade), true⟩,
        ⟨SinkKind.transient, some oid, Status.building,
          Payload.building (chooseVenue ray met) (attemptOf job.attemptsMade), false⟩] ++
        catchEmit env oid (attemptOf job.attemptsMade) m,
       Outcome.raise m) := by
  simp [processOrder, runAttempt, tryBody, promiseAllQuotes, hOid, hne, hRS, hRP, hray, hmet,
    hBS, hBP]

theorem run_exec_fail (job : Job) (env : Env) (oid m : String) (ray met : Quote)
    (hOid : job.data.orderId = some oid) (hne : oid ≠ "")
    (hRS : env.saveRes Status.routing = none)
    (hRP : env.pubRes Status.routing = none)
    (hray : env.rayQuote = Except.ok ray) (hmet : env.metQuote = Except.ok met)
    (hBS : env.saveRes Status.building = none)
    (hBP : env.pubRes Status.building = none)
    (hE : env.execRes = Except.error m) :
    processOrder job env =
      ([⟨SinkKind.durable, some oid, Status.routing,
          Payload.routing (attemptOf job.attemptsMade), true⟩,
        ⟨SinkKind.transient, some oid, Status.routing,
          Payload.routing (attemptOf job.attemptsMade), true⟩,
        ⟨SinkKind.durable, some oid, Status.building,
          Payload.building (chooseVenue ray met) (attemptOf job.attemptsMade), true⟩,
        ⟨SinkKind.transient, some oid, Status.building,
          Payload.building (chooseVenue ray met) (attemptOf job.attemptsMade), true⟩] ++
        catchEmit env oid (attemptOf job.attemptsMade) m,
       Outcome.raise m) := by
  simp [processOrder, runAttempt, tryBody, promiseAllQuotes, hOid, hne, hRS, hRP, hray, hmet,
    hBS, hBP, hE]

theorem run_saveS_fail (job : Job) (env : Env) (oid m : String) (ray met : Quote)
    (ex : ExecResult)
    (hOid : job.data.orderId = some oid) (hne : oid ≠ "")
    (hRS : env.saveRes Status.routing = none)
    (hRP : env.pubRes Status.routing = none)
    (hray : env.rayQuote = Except.ok ray) (hmet : env.metQuote = Except.ok met)
    (hBS : env.saveRes Status.building = none)
    (hBP : env.pubRes Status.building = none)
    (hE : env.execRes = Except.ok ex)
    (hSS : env.saveRes Status.submitted = some m) :
    processOrder job env =
      ([⟨SinkKind.durable, some oid, Status.routing,
          Payload.routing (attemptOf job.attemptsMade), true⟩,
        ⟨SinkKind.transient, some oid, Status.routing,
          Payload.routing (attemptOf job.attemptsMade), true⟩,
        ⟨SinkKind.durable, some oid, Status.building,
          Payload.building (chooseVenue ray met) (attemptOf job.attemptsMade), true⟩,
        ⟨SinkKind.transient, some oid, Status.building,
          Payload.building (chooseVenue ray met) (attemptOf job.attemptsMade), true⟩,
        ⟨SinkKind.durable, some oid, Status.submitted,
          Payload.submitted ex.txHash (attemptOf job.attemptsMade), false⟩] ++
        catchEmit env oid (attemptOf job.attemptsMade) m,
       Outcome.raise m) := by
  simp [processOrder, runAttempt, tryBody, promiseAllQuotes, hOid, hne, hRS, hRP, hray, hmet,
    hBS, hBP, hE, hSS]

theorem run_pubS_fail (job : Job) (env : Env) (oid m : String) (ray met : Quote)
    (ex : ExecResult)
    (hOid : job.data.orderId = some oid) (hne : oid ≠ "")
    (hRS : env.saveRes Status.routing = none)
    (hRP : env.pubRes Status.routing = none)
    (hray : env.rayQuote = Except.ok ray) (hmet : env.metQuote = Except.ok met)
    (hBS : env.saveRes Status.building = none)
    (hBP : env.pubRes Status.building = none)
    (hE : env.execRes = Except.ok ex)
    (hSS : env.saveRes Status.submitted = none)
    (hSP : env.pubRes Status.submitted = some m) :
    processOrder job env =
      ([⟨SinkKind.durable, some oid, Status.routing,
          Payload.routing (attemptOf job.attemptsMade), true⟩,
        ⟨SinkKind.transient, some oid, Status.routing,
          Payload.routing (attemptOf job.attemptsMade), true⟩,
        ⟨SinkKind.durable, some oid, Status.building,
          Payload.building (chooseVenue ray met) (attemptOf job.attemptsMade), true⟩,
        ⟨SinkKind.transient, some oid, Status.building,
          Payload.building (chooseVenue ray met) (attemptOf job.attemptsMade), true⟩,
        ⟨SinkKind.durable, some oid, Status.submitted,
          Payload.submitted ex.txHash (attemptOf job.attemptsMade), true⟩,
        ⟨SinkKind.transient, some oid, Status.submitted,
          Payload.submitted ex.txHash (attemptOf job.attemptsMade), false⟩] ++
        catchEmit env oid (attemptOf job.attemptsMade) m,
       Outcome.raise m) := by
  simp [processOrder, runAttempt, tryBody, promiseAllQuotes, hOid, hne, hRS, hRP, hray, hmet,
    hBS, hBP, hE, hSS, hSP]

theorem run_success (job : Job) (env : Env) (oid : String) (ray met : Quote)
    (ex : ExecResult)
    (hOid : job.data.orderId = some oid) (hne : oid ≠ "")
    (hRS : env.saveRes Status.routing = none)
    (hRP : env.pubRes Status.routing = none)
    (hray : env.rayQuote = Except.ok ray) (hmet : env.metQuote = Except.ok met)
    (hBS : env.saveRes Status.building = none)
    (hBP : env.pubRes Status.building = none)
    (hE : env.execRes = Except.ok ex)
    (hSS : env.saveRes Status.submitted = none)
    (hSP : env.pubRes Status.submitted = none) :
    processOrder job env =
      ([⟨SinkKind.durable, some oid, Status.routing,
          Payload.routing (attemptOf job.attemptsMade), true⟩,
        ⟨SinkKind.transient, some oid, Status.routing,
          Payload.routing (attemptOf job.attemptsMade), true⟩,
        ⟨SinkKind.durable, some oid, Status.building,
          Payload.building (chooseVenue ray met) (attemptOf job.attemptsMade), true⟩,
        ⟨SinkKind.transient, some oid, Status.building,
          Payload.building (chooseVenue ray met) (attemptOf job.attemptsMade), true⟩,
        ⟨SinkKind.durable, some oid, Status.submitted,
          Payload.submitted ex.txHash (attemptOf job.attemptsMade), true⟩,
        ⟨SinkKind.transient, some oid, Status.submitted,
          Payload.submitted ex.txHash (attemptOf job.attemptsMade), true⟩,
        ⟨SinkKind.durable, some oid, Status.confirmed,
          Payload.confirmed ex.txHash ex.executedPrice (chooseVenue ray met).dex
            (attemptOf job.attemptsMade) true,
          (env.saveRes Status.confirmed).isNone⟩,
        ⟨SinkKind.transient, some oid, Status.confirmed,
          Payload.confirmed ex.txHash ex.executedPrice (chooseVenue ray met).dex
            (attemptOf job.attemptsMade) true,
          (env.pubRes Status.confirmed).isNone⟩],
       Outcome.ret ⟨"filled", ex.txHash, ex.executedPrice, (chooseVenue ray met).dex,
         attemptOf job.attemptsMade, true⟩) := by
  simp [processOrder, runAttempt, tryBody, promiseAllQuotes, hOid, hne, hRS, hRP, hray, hmet,
    hBS, hBP, hE, hSS, hSP]

theorem exists_oid_of_not_missing (job : Job)
    (hm : ¬ missingOrderId job.data.orderId = true) :
    ∃ oid, job.data.orderId = some oid ∧ oid ≠ "" := by
  rcases h : job.data.orderId with _ | s
  · rw [h] at hm
    simp [missingOrderId] at hm
  · refine ⟨s, rfl, ?_⟩
    rw [h] at hm
    simpa [missingOrderId] using hm

/-! ### Claim theorems -/

/-- C6: for every job whose `orderId` is absent or empty, `processOrder`
raises "job missing orderId" immediately, with zero sink calls (the trace
is empty) and no other side effects. -/
theorem C6_missing_orderId_rejected (job : Job) (env : Env)
    (h : missingOrderId job.data.orderId = true) :
    processOrder job env = ([], Outcome.raise "job missing orderId") :=
  run_missing job env h

/-- Witness for C6 at a concrete job with no `orderId` field. -/
theorem C6_witness :
    processOrder jobMissing envAllOk = ([], Outcome.raise "job missing orderId") :=
  C6_missing_orderId_rejected jobMissing envAllOk (by decide)

/-- C4: whenever a quote fetch or the trade execution rejects, `processOrder`
emits exactly one `failed` event per sink — both carrying the current
attempt number and the raised error's message, and both attempted no matter
how the failed-step sink calls themselves behave — and then re-raises the
original error unchanged. -/
theorem C4_failed_event_and_rethrow :
    (∀ (job : Job) (env : Env) (oid m : String),
      job.data.orderId = some oid → oid ≠ "" →
      env.saveRes Status.routing = none → env.pubRes Status.routing = none →
      promiseAllQuotes env.rayQuote env.metQuote = Except.error m →
      ((processOrder job env).1.filter fun x => decide (x.status = Status.failed)) =
        [⟨SinkKind.durable, some oid, Status.failed,
            Payload.failed m (attemptOf job.attemptsMade), (env.saveRes Status.failed).isNone⟩,
         ⟨SinkKind.transient, some oid, Status.failed,
            Payload.failed m (attemptOf job.attemptsMade), (env.pubRes Status.failed).isNone⟩] ∧
      (processOrder job env).2 = Outcome.raise m) ∧
    (∀ (job : Job) (env : Env) (oid m : String) (ray met : Quote),
      job.data.orderId = some oid → oid ≠ "" →
      env.saveRes Status.routing = none → env.pubRes Status.routing = none →
      env.rayQuote = Except.ok ray → env.metQuote = Except.ok met →
      env.saveRes Status.building = none → env.pubRes Status.building = none →
      env.execRes = Except.error m →
      ((processOrder job env).1.filter fun x => decide (x.status = Status.failed)) =
        [⟨SinkKind.durable, some oid, Status.failed,
            Payload.failed m (attemptOf job.attemptsMade), (env.saveRes Status.failed).isNone⟩,
         ⟨SinkKind.transient, some oid, Status.failed,
            Payload.failed m (attemptOf job.attemptsMade), (env.pubRes Status.failed).isNone⟩] ∧
      (processOrder job env).2 = Outcome.raise m) := by
  constructor
  · intro job env oid m hOid hne hRS hRP hQ
    rw [run_quotes_fail job env oid m hOid hne hRS hRP hQ]
    exact ⟨by simp [catchEmit], rfl⟩
  · intro job env oid m ray met hOid hne hRS hRP hray hmet hBS hBP hE
    rw [run_exec_fail job env oid m ray met hOid hne hRS hRP hray hmet hBS hBP hE]
    exact ⟨by simp [catchEmit], rfl⟩

/-- Witness for C4 at a concrete run whose raydium quote fetch rejects. -/
theorem C4_witness :
    ((processOrder jobOk envQuoteFail).1.filter fun x => decide (x.status = Status.failed)) =
      [⟨SinkKind.durable, some "order-1", Status.failed, Payload.failed "quote timeout" 1, true⟩,
       ⟨SinkKind.transient, some "order-1", Status.failed, Payload.failed "quote timeout" 1, true⟩] ∧
    (processOrder jobOk envQuoteFail).2 = Outcome.raise "quote timeout" :=
  C4_failed_event_and_rethrow.1 jobOk envQuoteFail "order-1" "quote timeout" rfl (by decide)
    rfl rfl rfl

/-- C5: when the run reaches the confirmed step, the two confirmed-step sink
calls are isolated: whatever each of them does (including both rejecting),
the success record is still returned and both sinks are still invoked with
the confirmed payload; symmetrically, on the failure path the original
execution error is still re-raised and both sinks are still invoked with
the failed payload, whatever the failed-step sink calls do. -/
theorem C5_terminal_isolation :
    (∀ (job : Job) (env : Env) (oid : String) (ray met : Quote) (ex : ExecResult),
      job.data.orderId = some oid → oid ≠ "" →
      env.saveRes Status.routing = none → env.pubRes Status.routing = none →
      env.rayQuote = Except.ok ray → env.metQuote = Except.ok met →
      env.saveRes Status.building = none → env.pubRes Status.building = none →
      env.execRes = Except.ok ex →
      env.saveRes Status.submitted = none → env.pubRes Status.submitted = none →
      (processOrder job env).2 = Outcome.ret ⟨"filled", ex.txHash, ex.executedPrice,
          (chooseVenue ray met).dex, attemptOf job.attemptsMade, true⟩ ∧
      (⟨SinkKind.durable, some oid, Status.confirmed,
          Payload.confirmed ex.txHash ex.executedPrice (chooseVenue ray met).dex
            (attemptOf job.attemptsMade) true,
          (env.saveRes Status.confirmed).isNone⟩ : TraceEntry) ∈ (processOrder job env).1 ∧
      (⟨SinkKind.transient, some oid, Status.confirmed,
          Payload.confirmed ex.txHash ex.executedPrice (chooseVenue ray met).dex
            (attemptOf job.attemptsMade) true,
          (env.pubRes Status.confirmed).isNone⟩ : TraceEntry) ∈ (processOrder job env).1) ∧
    (∀ (job : Job) (env : Env) (oid m : String) (ray met : Quote),
      job.data.orderId = some oid → oid ≠ "" →
      env.saveRes Status.routing = none → env.pubRes Status.routing = none →
      env.rayQuote = Except.ok ray → env.metQuote = Except.ok met →
      env.saveRes Status.building = none → env.pubRes Status.building = none →
      env.execRes = Except.error m →
      (processOrder job env).2 = Outcome.raise m ∧
      (⟨SinkKind.durable, some oid, Status.failed,
          Payload.failed m (attemptOf job.attemptsMade),
          (env.saveRes Status.failed).isNone⟩ : TraceEntry) ∈ (processOrder job env).1 ∧
      (⟨SinkKind.transient, some oid, Status.failed,
          Payload.failed m (attemptOf job.attemptsMade),
          (env.pubRes Status.failed).isNone⟩ : TraceEntry) ∈ (processOrder job env).1) := by
  constructor
  · intro job env oid ray met ex hOid hne hRS hRP hray hmet hBS hBP hE hSS hSP
    rw [run_success job env oid ray met ex hOid hne hRS hRP hray hmet hBS hBP hE hSS hSP]
    refine ⟨rfl, ?_, ?_⟩ <;> simp
  · intro job env oid m ray met hOid hne hRS hRP hray hmet hBS hBP hE
    rw [run_exec_fail job env oid m ray met hOid hne hRS hRP hray hmet hBS hBP hE]
    refine ⟨rfl, ?_, ?_⟩ <;> simp [catchEmit]

/-- Witness for C5 at a concrete run in which BOTH sinks reject on the
confirmed step and the success record is still returned. -/
theorem C5_witness :
    (processOrder jobOk envConfBothFail).2 =
      Outcome.ret ⟨"filled", "tx-1", 99, "meteora", 1, true⟩ ∧
    (⟨SinkKind.durable, some "order-1", Status.confirmed,
        Payload.confirmed "tx-1" 99 "meteora" 1 true, false⟩ : TraceEntry) ∈
      (processOrder jobOk envConfBothFail).1 ∧
    (⟨SinkKind.transient, some "order-1", Status.confirmed,
        Payload.confirmed "tx-1" 99 "meteora" 1 true, false⟩ : TraceEntry) ∈
      (processOrder jobOk envConfBothFail).1 :=
  C5_terminal_isolation.1 jobOk envConfBothFail "order-1" qRay qMet exOk rfl (by decide)
    rfl rfl rfl rfl rfl rfl rfl rfl rfl

/-- C8: the attempt number is computed purely from the scheduler's counter,
`previousAttemptsMade + 1` (and 1 when the counter is absent), independent
of invocation order or prior calls, and every event `processOrder` emits
carries exactly that number. -/
theorem C8_attempt_numbering :
    (∀ k : ℕ, attemptOf (some k) = k + 1) ∧ attemptOf none = 1 ∧
    (∀ (job : Job) (env : Env),
      ((processOrder job env).1.all fun x =>
        decide (payloadAttempt x.payload = some (attemptOf job.attemptsMade))) = true) := by
  refine ⟨fun k => rfl, rfl, fun job env => ?_⟩
  by_cases hm : missingOrderId job.data.orderId = true
  · rw [run_missing job env hm]
    rfl
  · obtain ⟨oid, hOid, hne⟩ := exists_oid_of_not_missing job hm
    rcases hRS : env.saveRes Status.routing with _ | m
    · rcases hRP : env.pubRes Status.routing with _ | m
      · rcases hray : env.rayQuote with m | ray
        · rw [run_quotes_fail job env oid m hOid hne hRS hRP (by simp [promiseAllQuotes, hray])]
          simp [catchEmit, payloadAttempt]
        · rcases hmet : env.metQuote with m | met
          · rw [run_quotes_fail job env oid m hOid hne hRS hRP
              (by simp [promiseAllQuotes, hray, hmet])]
            simp [catchEmit, payloadAttempt]
          · rcases hBS : env.saveRes Status.building with _ | m
            · rcases hBP : env.pubRes Status.building with _ | m
              · rcases hE : env.execRes with m | ex
                · rw [run_exec_fail job env oid m ray met hOid hne hRS hRP hray hmet hBS hBP hE]
                  simp [catchEmit, payloadAttempt]
                · rcases hSS : env.saveRes Status.submitted with _ | m
                  · rcases hSP : env.pubRes Status.submitted with _ | m
                    · rw [run_success job env oid ray met ex hOid hne hRS hRP hray hmet
                        hBS hBP hE hSS hSP]
                      simp [payloadAttempt]
                    · rw [run_pubS_fail job env oid m ray met ex hOid hne hRS hRP hray hmet
                        hBS hBP hE hSS hSP]
                      simp [catchEmit, payloadAttempt]
                  · rw [run_saveS_fail job env oid m ray met ex hOid hne hRS hRP hray hmet
                      hBS hBP hE hSS]
                    simp [catchEmit, payloadAttempt]
              · rw [run_pubB_fail job env oid m ray met hOid hne hRS hRP hray hmet hBS hBP]
                simp [catchEmit, payloadAttempt]
            · rw [run_saveB_fail job env oid m ray met hOid hne hRS hRP hray hmet hBS]
              simp [catchEmit, payloadAttempt]
      · rw [run_pubR_fail job env oid m hOid hne hRS hRP]
        simp [catchEmit, payloadAttempt]
    · rw [run_saveR_fail job env oid m hOid hne hRS]
      simp [catchEmit, payloadAttempt]

/-- C2 (counterexample): per-step sink isolation fails at the routing step.
In a run whose trade execution would succeed, a durable-sink rejection on
the routing emission skips the transient routing emission entirely and
turns the final Outcome into a raised error, refuting the claim that a sink
failure at every lifecycle step is caught without affecting the other sink,
the progression, or the Outcome. -/
theorem C2_counterexample :
    envRoutSaveFail.execRes = Except.ok exOk ∧
    ((processOrder jobOk envRoutSaveFail).1.any fun x =>
      decide (x.kind = SinkKind.transient) && decide (x.status = Status.routing)) = false ∧
    (processOrder jobOk envRoutSaveFail).2 = Outcome.raise "db down" :=
  ⟨rfl, by decide, by decide⟩

/-- C2 (amended): only the confirmed-step and failed-step sink calls are
individually wrapped — there a failure is caught, does not abort the other
sink's emission, and does not change the Outcome — while a failure of
either sink call at the routing, building or submitted step aborts the
attempt: the run diverts to the failed path (a failed event is emitted) and
the Outcome becomes the raised sink error; in particular a durable-sink
failure at such a step skips the transient emission for that status (a
transient-sink failure cannot skip the durable call, which precedes it). -/
theorem C2_sink_isolation :
    (∀ (job : Job) (env : Env) (oid : String) (ray met : Quote) (ex : ExecResult),
      job.data.orderId = some oid → oid ≠ "" →
      env.saveRes Status.routing = none → env.pubRes Status.routing = none →
      env.rayQuote = Except.ok ray → env.metQuote = Except.ok met →
      env.saveRes Status.building = none → env.pubRes Status.building = none →
      env.execRes = Except.ok ex →
      env.saveRes Status.submitted = none → env.pubRes Status.submitted = none →
      (processOrder job env).2 = Outcome.ret ⟨"filled", ex.txHash, ex.executedPrice,
          (chooseVenue ray met).dex, attemptOf job.attemptsMade, true⟩ ∧
      ((processOrder job env).1.any fun x =>
        decide (x.kind = SinkKind.durable) && decide (x.status = Status.confirmed)) = true ∧
      ((processOrder job env).1.any fun x =>
        decide (x.kind = SinkKind.transient) && decide (x.status = Status.confirmed)) = true) ∧
    (∀ (job : Job) (env : Env) (oid m : String) (ray met : Quote),
      job.data.orderId = some oid → oid ≠ "" →
      env.saveRes Status.routing = none → env.pubRes Status.routing = none →
      env.rayQuote = Except.ok ray → env.metQuote = Except.ok met →
      env.saveRes Status.building = none → env.pubRes Status.building = none →
      env.execRes = Except.error m →
      (processOrder job env).2 = Outcome.raise m ∧
      ((processOrder job env).1.any fun x =>
        decide (x.kind = SinkKind.durable) && decide (x.status = Status.failed)) = true ∧
      ((processOrder job env).1.any fun x =>
        decide (x.kind = SinkKind.transient) && decide (x.status = Status.failed)) = true) ∧
    (∀ (job : Job) (env : Env) (oid m : String),
      job.data.orderId = some oid → oid ≠ "" →
      env.saveRes Status.routing = some m →
      (processOrder job env).2 = Outcome.raise m ∧
      ((processOrder job env).1.any fun x =>
        decide (x.kind = SinkKind.transient) && decide (x.status = Status.routing)) = false ∧
      emitsStatus (processOrder job env).1 Status.failed = true) ∧
    (∀ (job : Job) (env : Env) (oid m : String),
      job.data.orderId = some oid → oid ≠ "" →
      env.saveRes Status.routing = none → env.pubRes Status.routing = some m →
      (processOrder job env).2 = Outcome.raise m ∧
      emitsStatus (processOrder job env).1 Status.failed = true) ∧
    (∀ (job : Job) (env : Env) (oid m : String) (ray met : Quote),
      job.data.orderId = some oid → oid ≠ "" →
      env.saveRes Status.routing = none → env.pubRes Status.routing = none →
      env.rayQuote = Except.ok ray → env.metQuote = Except.ok met →
      env.saveRes Status.building = some m →
      (processOrder job env).2 = Outcome.raise m ∧
      ((processOrder job env).1.any fun x =>
        decide (x.kind = SinkKind.transient) && decide (x.status = Status.building)) = false ∧
      emitsStatus (processOrder job env).1 Status.failed = true) ∧
    (∀ (job : Job) (env : Env) (oid m : String) (ray met : Quote),
      job.data.orderId = some oid → oid ≠ "" →
      env.saveRes Status.routing = none → env.pubRes Status.routing = none →
      env.rayQuote = Except.ok ray → env.metQuote = Except.ok met →
      env.saveRes Status.building = none → env.pubRes Status.building = some m →
      (processOrder job env).2 = Outcome.raise m ∧
      emitsStatus (processOrder job env).1 Status.failed = true) ∧
    (∀ (job : Job) (env : Env) (oid m : String) (ray met : Quote) (ex : ExecResult),
      job.data.orderId = some oid → oid ≠ "" →
      env.saveRes Status.routing = none → env.pubRes Status.routing = none →
      env.rayQuote = Except.ok ray → env.metQuote = Except.ok met →
      env.saveRes Status.building = none → env.pubRes Status.building = none →
      env.execRes = Except.ok ex →
      env.saveRes Status.submitted = some m →
      (processOrder job env).2 = Outcome.raise m ∧
      ((processOrder job env).1.any fun x =>
        decide (x.kind = SinkKind.transient) && decide (x.status = Status.submitted)) = false ∧
      emitsStatus (processOrder job env).1 Status.failed = true) ∧
    (∀ (job : Job) (env : Env) (oid m : String) (ray met : Quote) (ex : ExecResult),
      job.data.orderId = some oid → oid ≠ "" →
      env.saveRes Status.routing = none → env.pubRes Status.routing = none →
      env.rayQuote = Except.ok ray → env.metQuote = Except.ok met →
      env.saveRes Status.building = none → env.pubRes Status.building = none →
      env.execRes = Except.ok ex →
      env.saveRes Status.submitted = none → env.pubRes Status.submitted = some m →
      (processOrder job env).2 = Outcome.raise m ∧
      emitsStatus (processOrder job env).1 Status.failed = true) := by
  refine ⟨?_, ?_, ?_, ?_, ?_, ?_, ?_, ?_⟩
  · intro job env oid ray met ex hOid hne hRS hRP hray hmet hBS hBP hE hSS hSP
    rw [run_success job env oid ray met ex hOid hne hRS hRP hray hmet hBS hBP hE hSS hSP]
    refine ⟨rfl, ?_, ?_⟩ <;> simp
  · intro job env oid m ray met hOid hne hRS hRP hray hmet hBS hBP hE
    rw [run_exec_fail job env oid m ray met hOid hne hRS hRP hray hmet hBS hBP hE]
    refine ⟨rfl, ?_, ?_⟩ <;> simp [catchEmit]
  · intro job env oid m hOid hne hRS
    rw [run_saveR_fail job env oid m hOid hne hRS]
    refine ⟨rfl, ?_, ?_⟩ <;> simp [catchEmit, emitsStatus]
  · intro job env oid m hOid hne hRS hRP
    rw [run_pubR_fail job env oid m hOid hne hRS hRP]
    refine ⟨rfl, ?_⟩
    simp [catchEmit, emitsStatus]
  · intro job env oid m ray met hOid hne hRS hRP hray hmet hBS
    rw [run_saveB_fail job env oid m ray met hOid hne hRS hRP hray hmet hBS]
    refine ⟨rfl, ?_, ?_⟩ <;> simp [catchEmit, emitsStatus]
  · intro job env oid m ray met hOid hne hRS hRP hray hmet hBS hBP
    rw [run_pubB_fail job env oid m ray met hOid hne hRS hRP hray hmet hBS hBP]
    refine ⟨rfl, ?_⟩
    simp [catchEmit, emitsStatus]
  · intro job env oid m ray met ex hOid hne hRS hRP hray hmet hBS hBP hE hSS
    rw [run_saveS_fail job env oid m ray met ex hOid hne hRS hRP hray hmet hBS hBP hE hSS]
    refine ⟨rfl, ?_, ?_⟩ <;> simp [catchEmit, emitsStatus]
  · intro job env oid m ray met ex hOid hne hRS hRP hray hmet hBS hBP hE hSS hSP
    rw [run_pubS_fail job env oid m ray met ex hOid hne hRS hRP hray hmet hBS hBP hE hSS hSP]
    refine ⟨rfl, ?_⟩
    simp [catchEmit, emitsStatus]

/-- Witness for C2 (amended) at a concrete run in which both confirmed-step
sink calls reject. -/
theorem C2_witness :
    (processOrder jobOk envConfBothFail).2 =
      Outcome.ret ⟨"filled", "tx-1", 99, "meteora", 1, true⟩ ∧
    ((processOrder jobOk envConfBothFail).1.any fun x =>
      decide (x.kind = SinkKind.durable) && decide (x.status = Status.confirmed)) = true ∧
    ((processOrder jobOk envConfBothFail).1.any fun x =>
      decide (x.kind = SinkKind.transient) && decide (x.status = Status.confirmed)) = true :=
  C2_sink_isolation.1 jobOk envConfBothFail "order-1" qRay qMet exOk rfl (by decide)
    rfl rfl rfl rfl rfl rfl rfl rfl rfl

/-- C3 (counterexample): in a run in which both quote fetches and the trade
execution succeed but the transient sink rejects on the submitted step, the
attempt does NOT emit 4 events in order ending with confirmed and does NOT
return the success record — it diverts to the failed path and raises. -/
theorem C3_counterexample :
    envSubPubFail.rayQuote = Except.ok qRay ∧ envSubPubFail.metQuote = Except.ok qMet ∧
    envSubPubFail.execRes = Except.ok exOk ∧
    (processOrder jobOk envSubPubFail).2 = Outcome.raise "ws down" ∧
    ((processOrder jobOk envSubPubFail).1.filter fun x =>
        decide (x.kind = SinkKind.durable)).map TraceEntry.status ≠
      [Status.routing, Status.building, Status.submitted, Status.confirmed] :=
  ⟨rfl, rfl, rfl, by decide, by decide⟩

/-- C3 (amended): for every intent with a non-empty orderId for which both
quote fetches and the trade execution succeed AND the routing-, building-
and submitted-step sink emissions all resolve, `processOrder` emits exactly
4 events to each sink, in order routing, building, submitted, confirmed,
each carrying attempt = previousAttemptsMade + 1, and returns the success
record. -/
theorem C3_success_path :
    ∀ (job : Job) (env : Env) (oid : String) (ray met : Quote) (ex : ExecResult) (k : ℕ),
      job.attemptsMade = some k →
      job.data.orderId = some oid → oid ≠ "" →
      env.saveRes Status.routing = none → env.pubRes Status.routing = none →
      env.rayQuote = Except.ok ray → env.metQuote = Except.ok met →
      env.saveRes Status.building = none → env.pubRes Status.building = none →
      env.execRes = Except.ok ex →
      env.saveRes Status.submitted = none → env.pubRes Status.submitted = none →
      (((processOrder job env).1.filter fun x => decide (x.kind = SinkKind.durable)).map
          TraceEntry.status =
        [Status.routing, Status.building, Status.submitted, Status.confirmed]) ∧
      (((processOrder job env).1.filter fun x => decide (x.kind = SinkKind.transient)).map
          TraceEntry.status =
        [Status.routing, Status.building, Status.submitted, Status.confirmed]) ∧
      ((processOrder job env).1.all fun x =>
        decide (payloadAttempt x.payload = some (k + 1))) = true ∧
      (processOrder job env).2 = Outcome.ret ⟨"filled", ex.txHash, ex.executedPrice,
        (chooseVenue ray met).dex, k + 1, true⟩ := by
  intro job env oid ray met ex k hAm hOid hne hRS hRP hray hmet hBS hBP hE hSS hSP
  rw [run_success job env oid ray met ex hOid hne hRS hRP hray hmet hBS hBP hE hSS hSP]
  simp [hAm, attemptOf, payloadAttempt]

/-- Witness for C3 (amended) at a concrete all-resolving run. -/
theorem C3_witness :
    (((processOrder jobOk envAllOk).1.filter fun x =>
        decide (x.kind = SinkKind.durable)).map TraceEntry.status =
      [Status.routing, Status.building, Status.submitted, Status.confirmed]) ∧
    (((processOrder jobOk envAllOk).1.filter fun x =>
        decide (x.kind = SinkKind.transient)).map TraceEntry.status =
      [Status.routing, Status.building, Status.submitted, Status.confirmed]) ∧
    ((processOrder jobOk envAllOk).1.all fun x =>
      decide (payloadAttempt x.payload = some 1)) = true ∧
    (processOrder jobOk envAllOk).2 =
      Outcome.ret ⟨"filled", "tx-1", 99, "meteora", 1, true⟩ :=
  C3_success_path jobOk envAllOk "order-1" qRay qMet exOk 0 rfl rfl (by decide)
    rfl rfl rfl rfl rfl rfl rfl rfl rfl

/-- C7 (counterexample): a submitted event is emitted (the durable submitted
call resolves) and the trade execution resolved, yet no confirmed event is
emitted, because the transient submitted call rejected — refuting the
claimed "if and only if". -/
theorem C7_counterexample :
    envSubPubFail.execRes = Except.ok exOk ∧
    ((processOrder jobOk envSubPubFail).1.any fun x =>
      decide (x.kind = SinkKind.durable) && decide (x.status = Status.submitted) && x.ok) = true ∧
    emitsStatus (processOrder jobOk envSubPubFail).1 Status.confirmed = false :=
  ⟨rfl, by decide, by decide⟩

/-- C7 (amended): a confirmed event is emitted in an attempt if and only if
a submitted event was emitted in that attempt and both submitted-step sink
calls resolved (which entails that the trade execution call did not raise;
execution success alone does not suffice). -/
theorem C7_confirmed_iff_submitted (job : Job) (env : Env) :
    emitsStatus (processOrder job env).1 Status.confirmed =
      (emitsStatus (processOrder job env).1 Status.submitted &&
        (env.saveRes Status.submitted).isNone && (env.pubRes Status.submitted).isNone) := by
  by_cases hm : missingOrderId job.data.orderId = true
  · rw [run_missing job env hm]
    rfl
  · obtain ⟨oid, hOid, hne⟩ := exists_oid_of_not_missing job hm
    rcases hRS : env.saveRes Status.routing with _ | m
    · rcases hRP : env.pubRes Status.routing with _ | m
      · rcases hray : env.rayQuote with m | ray
        · rw [run_quotes_fail job env oid m hOid hne hRS hRP (by simp [promiseAllQuotes, hray])]
          simp [catchEmit, emitsStatus]
        · rcases hmet : env.metQuote with m | met
          · rw [run_quotes_fail job env oid m hOid hne hRS hRP
              (by simp [promiseAllQuotes, hray, hmet])]
            simp [catchEmit, emitsStatus]
          · rcases hBS : env.saveRes Status.building with _ | m
            · rcases hBP : env.pubRes Status.building with _ | m
              · rcases hE : env.execRes with m | ex
                · rw [run_exec_fail job env oid m ray met hOid hne hRS hRP hray hmet hBS hBP hE]
                  simp [catchEmit, emitsStatus]
                · rcases hSS : env.saveRes Status.submitted with _ | m
                  · rcases hSP : env.pubRes Status.submitted with _ | m
                    · rw [run_success job env oid ray met ex hOid hne hRS hRP hray hmet
                        hBS hBP hE hSS hSP]
                      simp [emitsStatus, hSS, hSP]
                    · rw [run_pubS_fail job env oid m ray met ex hOid hne hRS hRP hray hmet
                        hBS hBP hE hSS hSP]
                      simp [catchEmit, emitsStatus, hSS, hSP]
                  · rw [run_saveS_fail job env oid m ray met ex hOid hne hRS hRP hray hmet
                      hBS hBP hE hSS]
                    simp [catchEmit, emitsStatus, hSS]
              · rw [run_pubB_fail job env oid m ray met hOid hne hRS hRP hray hmet hBS hBP]
                simp [catchEmit, emitsStatus]
            · rw [run_saveB_fail job env oid m ray met hOid hne hRS hRP hray hmet hBS]
              simp [catchEmit, emitsStatus]
      · rw [run_pubR_fail job env oid m hOid hne hRS hRP]
        simp [catchEmit, emitsStatus]
    · rw [run_saveR_fail job env oid m hOid hne hRS]
      simp [catchEmit, emitsStatus]

/-- C10: within every attempt and at every lifecycle status, the durable
sink call is invoked (and settles) before the transient sink call for that
same status — scanning the invocation trace, every transient invocation of
a status is preceded by a durable invocation of the same status. -/
theorem C10_durable_before_transient (job : Job) (env : Env) :
    dbtAux [] ((processOrder job env).1.map fun x => (x.kind, x.status)) = true := by
  by_cases hm : missingOrderId job.data.orderId = true
  · rw [run_missing job env hm]
    rfl
  · obtain ⟨oid, hOid, hne⟩ := exists_oid_of_not_missing job hm
    rcases hRS : env.saveRes Status.routing with _ | m
    · rcases hRP : env.pubRes Status.routing with _ | m
      · rcases hray : env.rayQuote with m | ray
        · rw [run_quotes_fail job env oid m hOid hne hRS hRP (by simp [promiseAllQuotes, hray])]
          simp [catchEmit, dbtAux]
        · rcases hmet : env.metQuote with m | met
          · rw [run_quotes_fail job env oid m hOid hne hRS hRP
              (by simp [promiseAllQuotes, hray, hmet])]
            simp [catchEmit, dbtAux]
          · rcases hBS : env.saveRes Status.building with _ | m
            · rcases hBP : env.pubRes Status.building with _ | m
              · rcases hE : env.execRes with m | ex
                · rw [run_exec_fail job env oid m ray met hOid hne hRS hRP hray hmet hBS hBP hE]
                  simp [catchEmit, dbtAux]
                · rcases hSS : env.saveRes Status.submitted with _ | m
                  · rcases hSP : env.pubRes Status.submitted with _ | m
                    · rw [run_success job env oid ray met ex hOid hne hRS hRP hray hmet
                        hBS hBP hE hSS hSP]
                      simp [dbtAux]
                    · rw [run_pubS_fail job env oid m ray met ex hOid hne hRS hRP hray hmet
                        hBS hBP hE hSS hSP]
                      simp [catchEmit, dbtAux]
                  · rw [run_saveS_fail job env oid m ray met ex hOid hne hRS hRP hray hmet
                      hBS hBP hE hSS]
                    simp [catchEmit, dbtAux]
              · rw [run_pubB_fail job env oid m ray met hOid hne hRS hRP hray hmet hBS hBP]
                simp [catchEmit, dbtAux]
            · rw [run_saveB_fail job env oid m ray met hOid hne hRS hRP hray hmet hBS]
              simp [catchEmit, dbtAux]
      · rw [run_pubR_fail job env oid m hOid hne hRS hRP]
        simp [catchEmit, dbtAux]
    · rw [run_saveR_fail job env oid m hOid hne hRS]
      simp [catchEmit, dbtAux]

/-- C1 (counterexample): the claimed effective-cost rule fails on the code.
With venue A quoting price 100 at zero fee (effective cost 100) and venue B
quoting price 99 at 5% fee (effective cost 103.95), the claim requires
venue A, but `processOrder` — which compares raw prices only — selects
venue B (meteora). -/
theorem C1_counterexample :
    effectiveCost qA0 < effectiveCost qB0 ∧
    (processOrder jobOk envFeeCex).2 =
      Outcome.ret ⟨"filled", "tx-1", 99, "meteora", 1, true⟩ :=
  ⟨by norm_num [effectiveCost, qA0, qB0], by decide⟩

/-- C1 (amended): for every attempt in which both venue quotes resolve,
`processOrder` selects the venue whose raw quoted price (fees ignored) is
lowest, and when the raw prices are exactly equal it selects venue A
(raydium, the first venue queried); in particular, for quotes
{price:100, fee:0.003} (venue A) and {price:98, fee:0.002} (venue B),
venue B is chosen. -/
theorem C1_raw_price_selection :
    (∀ ray met : Quote, (chooseVenue ray met).price = min ray.price met.price) ∧
    (∀ ray met : Quote, (chooseVenue ray met).dex = "meteora" ↔ met.price < ray.price) ∧
    (∀ ray met : Quote, ray.price = met.price → (chooseVenue ray met).dex = "raydium") ∧
    (∀ (job : Job) (env : Env) (oid : String) (ray met : Quote) (ex : ExecResult),
      job.data.orderId = some oid → oid ≠ "" →
      env.saveRes Status.routing = none → env.pubRes Status.routing = none →
      env.rayQuote = Except.ok ray → env.metQuote = Except.ok met →
      env.saveRes Status.building = none → env.pubRes Status.building = none →
      env.execRes = Except.ok ex →
      env.saveRes Status.submitted = none → env.pubRes Status.submitted = none →
      (processOrder job env).2 = Outcome.ret ⟨"filled", ex.txHash, ex.executedPrice,
        (chooseVenue ray met).dex, attemptOf job.attemptsMade, true⟩) ∧
    (processOrder jobOk envAllOk).2 =
      Outcome.ret ⟨"filled", "tx-1", 99, "meteora", 1, true⟩ := by
  refine ⟨?_, ?_, ?_, ?_, by decide⟩
  · intro ray met
    by_cases h : ray.price ≤ met.price
    · simp [chooseVenue, h, min_eq_left h]
    · simp [chooseVenue, h, min_eq_right (le_of_lt (not_le.mp h))]
  · intro ray met
    constructor
    · intro hdex
      by_cases h : ray.price ≤ met.price
      · exfalso
        simp [chooseVenue, h] at hdex
      · exact not_le.mp h
    · intro h
      simp [chooseVenue, not_le.2 h]
  · intro ray met h
    simp [chooseVenue, h.le]
  · intro job env oid ray met ex hOid hne hRS hRP hray hmet hBS hBP hE hSS hSP
    rw [run_success job env oid ray met ex hOid hne hRS hRP hray hmet hBS hBP hE hSS hSP]

/-- Witness for C1 (amended): the raw-price tie-break picks raydium, and the
spec's own example run picks meteora. -/
theorem C1_witness :
    (chooseVenue ⟨5, 0⟩ ⟨5, 1 / 100⟩).dex = "raydium" ∧
    (processOrder jobOk envAllOk).2 =
      Outcome.ret ⟨"filled", "tx-1", 99, "meteora", 1, true⟩ :=
  ⟨C1_raw_price_selection.2.2.1 ⟨5, 0⟩ ⟨5, 1 / 100⟩ rfl,
   C1_raw_price_selection.2.2.2.1 jobOk envAllOk "order-1" qRay qMet exOk rfl (by decide)
     rfl rfl rfl rfl rfl rfl rfl rfl rfl⟩

/-- C9: the backwards-compatible wrapper catches every error raised by the
inner processing logic — including the missing-orderId validation error —
and before rethrowing the same error it attempts a `failed` emission:
it always invokes the durable sink (with the possibly-absent orderId), and
when that call resolves it also invokes the transient sink; so at this
public entry point a missing orderId does not result in zero sink calls. -/
theorem C9_wrapper_failed_emission :
    (∀ (job : Job) (env : Env) (wSave wPub : Option String) (t : List TraceEntry) (m : String),
      processOrderLogic job.data env = (t, Outcome.raise m) →
      (processOrderWrapper job env wSave wPub).2 = Outcome.raise m ∧
      0 < (processOrderWrapper job env wSave wPub).1.length ∧
      (wSave = none → (processOrderWrapper job env wSave wPub).1 =
        t ++ [⟨SinkKind.durable, job.data.orderId, Status.failed, Payload.wrapperFailed m, true⟩,
              ⟨SinkKind.transient, job.data.orderId, Status.failed, Payload.wrapperFailed m,
                wPub.isNone⟩]) ∧
      (∀ s, wSave = some s → (processOrderWrapper job env wSave wPub).1 =
        t ++ [⟨SinkKind.durable, job.data.orderId, Status.failed, Payload.wrapperFailed m,
                false⟩])) ∧
    (∀ (job : Job) (env : Env) (wSave wPub : Option String),
      missingOrderId job.data.orderId = true →
      (processOrderWrapper job env wSave wPub).2 = Outcome.raise "job missing orderId" ∧
      0 < (processOrderWrapper job env wSave wPub).1.length) := by
  constructor
  · intro job env wSave wPub t m h
    refine ⟨?_, ?_, ?_, ?_⟩
    · cases wSave <;> simp [processOrderWrapper, h]
    · cases wSave <;> simp [processOrderWrapper, h]
    · intro hw
      subst hw
      simp [processOrderWrapper, h]
    · intro s hw
      subst hw
      simp [processOrderWrapper, h]
  · intro job env wSave wPub hm
    have h : processOrderLogic job.data env = ([], Outcome.raise "job missing orderId") :=
      run_missing ⟨job.data, none⟩ env hm
    constructor
    · cases wSave <;> simp [processOrderWrapper, h]
    · cases wSave <;> simp [processOrderWrapper, h]

/-- Witness for C9 at a concrete job with no orderId: the wrapper still
raises the validation error but has made at least one sink call. -/
theorem C9_witness :
    (processOrderWrapper jobMissing envAllOk none none).2 =
      Outcome.raise "job missing orderId" ∧
    0 < (processOrderWrapper jobMissing envAllOk none none).1.length :=
  C9_wrapper_failed_emission.2 jobMissing envAllOk none none (by decide)

end OrderExec
